import Mathlib

/-!
CentralAuth Express example: the route layer of `server.js`.

A shallow embedding of `src/server.js`.  The file registers six `GET` routes on
an Express application, five of which delegate to a `CentralAuthHTTPClass`
instance of the external `centralauth` library.

* JavaScript values that the error lookup can see or produce are modelled by
  `JsValue` (strings, the array and plain-object forms a parsed query parameter
  can take, and the members an object literal inherits from `Object.prototype`).
* The external library is a parameter (`AuthLibrary`): its constructor and its
  five operations are arbitrary functions that either return or throw.
* A handler is a function producing the list of observable events it performs
  (`Event`): constructions, calls on the client, console output and the calls it
  makes itself on `res`.  `res.redirect` and `res.send` set headers: once a
  response has been started on `res`, by the library or by the handler, they
  throw, as Express and Node do (`ERR_HTTP_HEADERS_SENT`), and nothing is sent.
* An `await` is the settling of the awaited outcome; a promise that never
  settles is outside the model.

Left out, because no route handler depends on it: the parsing of `baseUrl` for
the port (lines 11-12), the middleware registrations (lines 38-42) and
`app.listen` with its start-up log (lines 163-170).
-/

namespace CentralAuthExpress

/-! ## JavaScript values -/

/-- The JavaScript values that occur in the error lookup. -/
inductive JsValue where
  /-- The value `undefined`. -/
  | undefined
  /-- A primitive string. -/
  | string (s : String)
  /-- An array of strings: a query parameter that is given several times. -/
  | array (items : List String)
  /-- A plain object without a `toString` of its own: a bracketed query parameter. -/
  | plainObject
  /-- A built-in function object, known by its name, e.g. `Object.prototype.toString`. -/
  | builtinFunction (name : String)
  /-- The object `Object.prototype` itself (what the `__proto__` getter yields). -/
  | objectPrototype
  deriving DecidableEq, Repr

/-- JavaScript truthiness (`ToBoolean`): of the values modelled, only `undefined`
and the empty string are falsy. -/
def truthy : JsValue → Bool
  | .undefined => false
  | .string s => s != ""
  | .array _ => true
  | .plainObject => true
  | .builtinFunction _ => true
  | .objectPrototype => true

/-- JavaScript `ToString`, as applied by a template literal and by a computed
property access: an array joins its items with commas, an ordinary object gives
`[object Object]`, a built-in function gives its native source text. -/
def toStr : JsValue → String
  | .undefined => "undefined"
  | .string s => s
  | .array items => ",".intercalate items
  | .plainObject => "[object Object]"
  | .builtinFunction name => "function " ++ name ++ "() \x7b [native code] \x7d"
  | .objectPrototype => "[object Object]"

/-- The names of the function-valued members of `Object.prototype` other than
`constructor`. -/
def objectPrototypeMethods : List String :=
  ["__defineGetter__", "__defineSetter__", "hasOwnProperty", "__lookupGetter__",
   "__lookupSetter__", "isPrototypeOf", "propertyIsEnumerable", "toString",
   "valueOf", "toLocaleString"]

/-- Property lookup on `Object.prototype`, the prototype of every object
literal: `constructor` is the function `Object`, `__proto__` is the accessor
that returns the prototype of the receiver. -/
def objectPrototypeGet (key : String) : JsValue :=
  if key = "constructor" then .builtinFunction "Object"
  else if key ∈ objectPrototypeMethods then .builtinFunction key
  else if key = "__proto__" then .objectPrototype
  else .undefined

/-- The expression `obj[key]` for an object literal `obj` with string-valued own
properties: an own property wins, otherwise the prototype chain is consulted. -/
def getProperty (obj : List (String × String)) (key : JsValue) : JsValue :=
  match obj.lookup (toStr key) with
  | some v => .string v
  | none => objectPrototypeGet (toStr key)

/-- The expression `a || b`. -/
def jsOr (a b : JsValue) : JsValue := if truthy a then a else b

/-! ## `getErrorMessage` (server.js, lines 26-35) -/

/-- The object literal `errors`. -/
def errors : List (String × String) :=
  [("not_logged_in", "You need to be logged in to view the profile."),
   ("logout_failed", "Logout failed. Please try again."),
   ("callback_failed", "Authentication callback failed. Please try logging in again."),
   ("login_failed", "Login failed. Please try again."),
   ("user_info_failed", "Failed to get user information. Please try again.")]

/-- The function `getErrorMessage`: `errors[errorCode] || 'An error occurred.'`. -/
def getErrorMessage (errorCode : JsValue) : JsValue :=
  jsOr (getProperty errors errorCode) (.string "An error occurred.")

/-! ## Process environment and module constants (server.js, lines 5-12) -/

/-- The four variables of `process.env` the program reads; a variable that is
not set reads as `undefined`, here `none`. -/
structure Env where
  BASE_URL : Option String
  AUTH_ORGANIZATION_ID : Option String
  AUTH_SECRET : Option String
  AUTH_BASE_URL : Option String
  deriving DecidableEq, Repr

/-- The expression `process.env.X || d` for a string default `d`: an unset or
empty variable gives the default. -/
def envOr (v : Option String) (d : String) : String :=
  match v with
  | some s => if s = "" then d else s
  | none => d

/-- The module constant `baseUrl` (line 10).  It is evaluated once, when the
module is loaded, from the environment as it stands then (`loadEnv`). -/
def baseUrl (loadEnv : Env) : String :=
  envOr loadEnv.BASE_URL "http://localhost:3000"

/-! ## The external `centralauth` library -/

/-- The options object given to `new CentralAuthHTTPClass`. -/
structure Config where
  clientId : Option String
  secret : Option String
  authBaseUrl : Option String
  callbackUrl : String
  debug : Bool
  deriving DecidableEq, Repr

/-- A thrown JavaScript value. -/
structure JsError where
  message : String
  deriving DecidableEq, Repr

/-- How an evaluation ends: it returns a value, or it throws. -/
inductive Completion (α : Type) where
  | returned (value : α)
  | threw (error : JsError)
  deriving DecidableEq, Repr

/-- An instance of `CentralAuthHTTPClass`: its identity as an object and the
configuration it was built with. -/
structure AuthClient where
  id : Nat
  config : Config
  deriving DecidableEq, Repr

/-- The inbound request: the two query parameters the program reads and the
remainder, which only the library looks at. -/
structure Request where
  queryError : JsValue
  querySuccess : JsValue
  rest : String
  deriving DecidableEq, Repr

/-- The response object of a request, known by its identity. -/
structure Response where
  handle : Nat
  deriving DecidableEq, Repr

/-- The options argument of `loginHTTP` and `logoutHTTP`. -/
structure Options where
  returnTo : String
  deriving DecidableEq, Repr

/-- The user profile resolved by `getUserDataHTTP`. -/
structure User where
  email : String
  gravatar : String
  deriving DecidableEq, Repr

/-- A call that produces the HTTP response. -/
inductive ResAction where
  | redirect (url : String)
  | send (body : String)
  deriving DecidableEq, Repr

/-- The outcome of one of the four `...HTTP(req, res, ...)` operations: what it
did to the response, and whether its promise fulfilled or rejected. -/
structure OpOutcome where
  actions : List ResAction
  result : Completion Unit
  deriving DecidableEq, Repr

/-- The library, as far as the program uses it.  Nothing is assumed about it:
every member is an arbitrary function of the arguments it is given. -/
structure AuthLibrary where
  construct : Config → Completion Unit
  loginHTTP : AuthClient → Request → Response → Options → OpOutcome
  callbackHTTP : AuthClient → Request → Response → OpOutcome
  userHTTP : AuthClient → Request → Response → OpOutcome
  logoutHTTP : AuthClient → Request → Response → Options → OpOutcome
  getUserDataHTTP : AuthClient → Request → Completion (Option User)

/-! ## Observable events and the execution monad -/

/-- The operations of the client. -/
inductive Op where
  | loginHTTP
  | callbackHTTP
  | userHTTP
  | logoutHTTP
  | getUserDataHTTP
  deriving DecidableEq, Repr

/-- What a handler can be seen to do. -/
inductive Event where
  /-- Evaluation of `new CentralAuthHTTPClass(config)`; `id` is the new object. -/
  | construct (id : Nat) (config : Config)
  /-- A method call on the client object `client` with the arguments given. -/
  | call (client : Nat) (op : Op) (req : Request) (res : Option Response)
      (options : Option Options)
  /-- A response action performed on `res` by the library inside an operation. -/
  | byClient (res : Response) (action : ResAction)
  /-- A call `console.error(text, error)` or `console.log(text)`. -/
  | console (text : String) (error : Option JsError)
  /-- A call of the handler itself on `res`. -/
  | byHandler (res : Response) (action : ResAction)
  deriving DecidableEq, Repr

/-- The state a computation runs in: `process.env` as it stands, the number of
objects allocated so far, and the events so far, oldest first. -/
structure World where
  env : Env
  heap : Nat
  events : List Event
  deriving DecidableEq, Repr

/-- A JavaScript computation: from a world it returns or throws, in a new world. -/
def Js (α : Type) : Type := World → Completion α × World

/-- Run a computation. -/
def Js.run {α : Type} (x : Js α) (w : World) : Completion α × World := x w

/-- A computation that returns `a`. -/
def Js.pure {α : Type} (a : α) : Js α := fun w => (.returned a, w)

/-- Sequencing: a throw in the first part skips the second. -/
def Js.bind {α β : Type} (x : Js α) (f : α → Js β) : Js β := fun w =>
  match x w with
  | (.returned a, w1) => f a w1
  | (.threw e, w1) => (.threw e, w1)

/-- The statement `throw e`. -/
def Js.throw {α : Type} (e : JsError) : Js α := fun w => (.threw e, w)

/-- The statement `try { body } catch (error) { handler }`: effects of the body
that precede the throw stay. -/
def Js.tryCatch {α : Type} (body : Js α) (handler : JsError → Js α) : Js α := fun w =>
  match body w with
  | (.returned a, w1) => (.returned a, w1)
  | (.threw e, w1) => handler e w1

instance : Monad Js where
  pure := Js.pure
  bind := Js.bind

instance : MonadExcept JsError Js where
  throw := Js.throw
  tryCatch := Js.tryCatch

/-- Record an event. -/
def emit (e : Event) : Js Unit := fun w =>
  (.returned (), { w with events := w.events ++ [e] })

/-- Record several events, in order. -/
def emitAll (es : List Event) : Js Unit := fun w =>
  (.returned (), { w with events := w.events ++ es })

/-- Read `process.env`. -/
def processEnv : Js Env := fun w => (.returned w.env, w)

/-- Allocate a new object and return its identity. -/
def allocate : Js Nat := fun w => (.returned w.heap, { w with heap := w.heap + 1 })

/-- Settle a completion: return its value or throw its error (`await`). -/
def settle {α : Type} : Completion α → Js α
  | .returned a => Js.pure a
  | .threw e => Js.throw e

/-- The expression `new CentralAuthHTTPClass(config)`. -/
def newCentralAuthHTTPClass (lib : AuthLibrary) (config : Config) : Js AuthClient := do
  let id ← allocate
  emit (.construct id config)
  settle (lib.construct config)
  return { id := id, config := config }

/-- An awaited call of one of the four operations that take `req` and `res`. -/
def callHTTP (client : AuthClient) (op : Op) (req : Request) (res : Response)
    (options : Option Options) (outcome : OpOutcome) : Js Unit := do
  emit (.call client.id op req (some res) options)
  emitAll (outcome.actions.map (Event.byClient res))
  settle outcome.result

/-- The call `console.error(text, error)`. -/
def consoleError (text : String) (error : JsError) : Js Unit :=
  emit (.console text (some error))

/-- The call `console.log(text)`. -/
def consoleLog (text : String) : Js Unit :=
  emit (.console text none)

/-- The property `res.headersSent`: a response has been started on `res`, by a
response action of the library or of the handler. -/
def headersSent (events : List Event) (res : Response) : Bool :=
  events.any fun e =>
    match e with
    | .byClient r _ => decide (r = res)
    | .byHandler r _ => decide (r = res)
    | _ => false

/-- The error Node throws when a header is set on a response already started
(code `ERR_HTTP_HEADERS_SENT`). -/
def headersSentError : JsError :=
  { message := "Cannot set headers after they are sent to the client" }

/-- The call `res.redirect(url)`.  It sets the `Location` header first, so on a
response already started it throws and sends nothing. -/
def resRedirect (res : Response) (url : String) : Js Unit := fun w =>
  if headersSent w.events res then (.threw headersSentError, w)
  else emit (.byHandler res (.redirect url)) w

/-- The call `res.send(body)`.  It sets the content headers first, so on a
response already started it throws and sends nothing. -/
def resSend (res : Response) (body : String) : Js Unit := fun w =>
  if headersSent w.events res then (.threw headersSentError, w)
  else emit (.byHandler res (.send body)) w

/-! ## `getCentralAuthInstance` (server.js, lines 14-24) -/

/-- The function `getCentralAuthInstance`.  Three members of the configuration
are read from `process.env` when the function runs; `callbackUrl` is built from
the module constant `baseUrl`. -/
def getCentralAuthInstance (lib : AuthLibrary) (loadEnv : Env) : Js AuthClient := do
  let env ← processEnv
  newCentralAuthHTTPClass lib
    { clientId := env.AUTH_ORGANIZATION_ID
      secret := env.AUTH_SECRET
      authBaseUrl := env.AUTH_BASE_URL
      callbackUrl := baseUrl loadEnv ++ "/api/auth/callback"
      debug := true }

/-! ## Page templates (server.js, lines 46-70 and 127-159) -/

/-- Home page: the template text before the error placeholder (lines 46-60). -/
def homeHead : String :=
  "\n" ++
  "    <!DOCTYPE html>\n" ++
  "    <html>\n" ++
  "    <head>\n" ++
  "      <meta charset=\"UTF-8\">\n" ++
  "      <meta name=\"viewport\" content=\"width=device-width, initial-scale=1.0\">\n" ++
  "      <title>CentralAuth Express Example</title>\n" ++
  "      <link rel=\"stylesheet\" href=\"/styles.css\">\n" ++
  "    </head>\n" ++
  "    <body>\n" ++
  "      <div class=\"container\">\n" ++
  "        <h1>CentralAuth Express.js Example</h1>\n" ++
  "        <p>Welcome to the CentralAuth integration example using Express.js!</p>\n" ++
  "        \n" ++
  "        "

/-- Home page: the template text after the error placeholder (lines 60-70). -/
def homeTail : String :=
  "\n" ++
  "        \n" ++
  "        <div id=\"auth-section\">\n" ++
  "          <a href=\"/api/auth/login\" class=\"btn\">Login with CentralAuth</a>\n" ++
  "          <a href=\"/profile\" class=\"btn btn-success\">View Profile</a>\n" ++
  "          <a href=\"/api/auth/logout\" class=\"btn btn-danger\">Logout</a>\n" ++
  "        </div>\n" ++
  "      </div>\n" ++
  "    </body>\n" ++
  "    </html>\n" ++
  "  "

/-- Profile page: the template text before the success placeholder (lines 127-140). -/
def profileHead : String :=
  "\n" ++
  "    <!DOCTYPE html>\n" ++
  "    <html>\n" ++
  "    <head>\n" ++
  "      <meta charset=\"UTF-8\">\n" ++
  "      <meta name=\"viewport\" content=\"width=device-width, initial-scale=1.0\">\n" ++
  "      <title>Profile - CentralAuth Express Example</title>\n" ++
  "      <link rel=\"stylesheet\" href=\"/styles.css\">\n" ++
  "    </head>\n" ++
  "    <body>\n" ++
  "      <div class=\"container\">\n" ++
  "        <h1>User Profile</h1>\n" ++
  "        \n" ++
  "        "

/-- Profile page: the text between the success and the error placeholder (lines 140-141). -/
def profileGap1 : String :=
  "\n" ++
  "        "

/-- Profile page: the text between the error and the user placeholder (lines 141-143). -/
def profileGap2 : String :=
  "\n" ++
  "        \n" ++
  "        "

/-- User block: the text before the avatar address (lines 143-145). -/
def userInfoHead : String :=
  "\n" ++
  "          <div class=\"user-info\">\n" ++
  "            <img src=\""

/-- User block: the text between the avatar address and the email (lines 145-146). -/
def userInfoMid : String :=
  "\" alt=\"User Avatar\">\n" ++
  "            <p><strong>Email:</strong> "

/-- User block: the text after the email (lines 146-148). -/
def userInfoTail : String :=
  "</p>\n" ++
  "          </div>\n" ++
  "        "

/-- The alternative of the user block, for a falsy `user` (lines 148-150). -/
def notLoggedIn : String :=
  "\n" ++
  "          <p>You are not logged in.</p>\n" ++
  "        "

/-- Profile page: the template text after the user placeholder (lines 150-159). -/
def profileTail : String :=
  "\n" ++
  "        \n" ++
  "        <div class=\"button-group\">\n" ++
  "          <a href=\"/\" class=\"btn\">Back to Home</a>\n" ++
  "          <a href=\"/api/auth/logout\" class=\"btn btn-danger\">Logout</a>\n" ++
  "        </div>\n" ++
  "      </div>\n" ++
  "    </body>\n" ++
  "    </html>\n" ++
  "  "

/-- The interpolation
`req.query.error ? (the error block with getErrorMessage(req.query.error)) : ''`
shared by both pages (lines 60 and 141). -/
def errorBlock (req : Request) : String :=
  if truthy req.queryError then
    "<div class=\"error\">" ++ toStr (getErrorMessage req.queryError) ++ "</div>"
  else ""

/-- The interpolation `req.query.success ? (the success block) : ''` (line 140). -/
def successBlock (req : Request) : String :=
  if truthy req.querySuccess then "<div class=\"success\">Successfully logged in!</div>"
  else ""

/-- The interpolation `user ? (the user block) : (the alternative)` (lines 143-150);
`null` is `none`. -/
def userBlock (user : Option User) : String :=
  match user with
  | some u => userInfoHead ++ u.gravatar ++ userInfoMid ++ u.email ++ userInfoTail
  | none => notLoggedIn

/-- The body sent by `GET /`. -/
def homePage (req : Request) : String :=
  homeHead ++ errorBlock req ++ homeTail

/-- The body sent by `GET /profile`. -/
def profilePage (req : Request) (user : Option User) : String :=
  profileHead ++ successBlock req ++ profileGap1 ++ errorBlock req ++ profileGap2 ++
    userBlock user ++ profileTail

/-! ## The route handlers (server.js, lines 45-160) -/

/-- Handler of `GET /` (lines 45-71). -/
def homeHandler (req : Request) (res : Response) : Js Unit :=
  resSend res (homePage req)

/-- Handler of `GET /api/auth/login` (lines 74-82). -/
def loginHandler (lib : AuthLibrary) (loadEnv : Env) (req : Request) (res : Response) :
    Js Unit :=
  try
    let authClient ← getCentralAuthInstance lib loadEnv
    let options : Options := { returnTo := baseUrl loadEnv ++ "/profile" }
    callHTTP authClient .loginHTTP req res (some options)
      (lib.loginHTTP authClient req res options)
  catch error =>
    consoleError "Login error:" error
    resRedirect res "/?error=login_failed"

/-- Handler of `GET /api/auth/callback` (lines 84-92). -/
def callbackHandler (lib : AuthLibrary) (loadEnv : Env) (req : Request) (res : Response) :
    Js Unit :=
  try
    let authClient ← getCentralAuthInstance lib loadEnv
    callHTTP authClient .callbackHTTP req res none (lib.callbackHTTP authClient req res)
  catch error =>
    consoleError "Callback error:" error
    resRedirect res "/?error=callback_failed"

/-- Handler of `GET /api/auth/user` (lines 94-102). -/
def userHandler (lib : AuthLibrary) (loadEnv : Env) (req : Request) (res : Response) :
    Js Unit :=
  try
    let authClient ← getCentralAuthInstance lib loadEnv
    callHTTP authClient .userHTTP req res none (lib.userHTTP authClient req res)
  catch error =>
    consoleError "User info error:" error
    resRedirect res "/?error=user_info_failed"

/-- Handler of `GET /api/auth/logout` (lines 104-113). -/
def logoutHandler (lib : AuthLibrary) (loadEnv : Env) (req : Request) (res : Response) :
    Js Unit :=
  try
    let authClient ← getCentralAuthInstance lib loadEnv
    let options : Options := { returnTo := baseUrl loadEnv }
    callHTTP authClient .logoutHTTP req res (some options)
      (lib.logoutHTTP authClient req res options)
  catch error =>
    consoleError "Logout error:" error
    resRedirect res "/?error=logout_failed"

/-- The `try` statement of the profile handler (lines 118-125): it yields the
user, or `none` when the `catch` block has redirected and the handler returns. -/
def fetchUser (lib : AuthLibrary) (loadEnv : Env) (req : Request) (res : Response) :
    Js (Option (Option User)) :=
  try
    let authClient ← getCentralAuthInstance lib loadEnv
    emit (.call authClient.id .getUserDataHTTP req none none)
    let user ← settle (lib.getUserDataHTTP authClient req)
    return some user
  catch _ =>
    consoleLog "Could not fetch fresh user data"
    resRedirect res "/?error=not_logged_in"
    return none

/-- Handler of `GET /profile` (lines 116-160). -/
def profileHandler (lib : AuthLibrary) (loadEnv : Env) (req : Request) (res : Response) :
    Js Unit := do
  match ← fetchUser lib loadEnv req res with
  | none => return
  | some user => resSend res (profilePage req user)

/-- The six routes registered on the application. -/
inductive Route where
  | home
  | login
  | callback
  | user
  | logout
  | profile
  deriving DecidableEq, Repr

/-- The route table: the handler `app.get` registers for each path. -/
def handle (lib : AuthLibrary) (loadEnv : Env) (route : Route) (req : Request)
    (res : Response) : Js Unit :=
  match route with
  | .home => homeHandler req res
  | .login => loginHandler lib loadEnv req res
  | .callback => callbackHandler lib loadEnv req res
  | .user => userHandler lib loadEnv req res
  | .logout => logoutHandler lib loadEnv req res
  | .profile => profileHandler lib loadEnv req res

/-- The path of a route. -/
def Route.path : Route → String
  | .home => "/"
  | .login => "/api/auth/login"
  | .callback => "/api/auth/callback"
  | .user => "/api/auth/user"
  | .logout => "/api/auth/logout"
  | .profile => "/profile"

/-! ## Observations on event lists -/

/-- The calls the handler itself made on `res`, in order. -/
def handlerActions : List Event → List ResAction
  | [] => []
  | .byHandler _ a :: es => a :: handlerActions es
  | _ :: es => handlerActions es

/-- The response actions of handler and library together, in order. -/
def responseActions : List Event → List ResAction
  | [] => []
  | .byHandler _ a :: es => a :: responseActions es
  | .byClient _ a :: es => a :: responseActions es
  | _ :: es => responseActions es

/-- The response actions of the library, in order. -/
def clientActions : List Event → List ResAction
  | [] => []
  | .byClient _ a :: es => a :: clientActions es
  | _ :: es => clientActions es

/-- The constructions, in order: object identity and configuration. -/
def constructions : List Event → List (Nat × Config)
  | [] => []
  | .construct id c :: es => (id, c) :: constructions es
  | _ :: es => constructions es

/-- The method calls on client objects, in order. -/
def calls : List Event → List Event
  | [] => []
  | .call c op req res o :: es => .call c op req res o :: calls es
  | _ :: es => calls es

/-- The identities of the client objects constructed or called. -/
def clientIds : List Event → List Nat
  | [] => []
  | .construct id _ :: es => id :: clientIds es
  | .call c _ _ _ _ :: es => c :: clientIds es
  | _ :: es => clientIds es

/-- The world in which a request is handled: the events start empty. -/
def World.start (env : Env) (heap : Nat) : World :=
  { env := env, heap := heap, events := [] }

/-- The events of handling one request. -/
def eventsOf (lib : AuthLibrary) (loadEnv env : Env) (heap : Nat) (route : Route)
    (req : Request) (res : Response) : List Event :=
  ((handle lib loadEnv route req res).run (World.start env heap)).2.events

/-- How the handler of a request completes. -/
def completionOf (lib : AuthLibrary) (loadEnv env : Env) (heap : Nat) (route : Route)
    (req : Request) (res : Response) : Completion Unit :=
  ((handle lib loadEnv route req res).run (World.start env heap)).1

/-- The allocation count after handling one request. -/
def heapAfter (lib : AuthLibrary) (loadEnv env : Env) (heap : Nat) (route : Route)
    (req : Request) (res : Response) : Nat :=
  ((handle lib loadEnv route req res).run (World.start env heap)).2.heap


/-! ## Counting a tag in a page -/

/-- The number of positions of `page` at which `needle` starts. -/
def countAt (needle : List Char) : List Char → Nat
  | [] => 0
  | c :: cs => (if needle.isPrefixOf (c :: cs) then 1 else 0) + countAt needle cs

/-- The number of occurrences of the text `needle` in `page`. -/
def occurrences (needle page : String) : Nat := countAt needle.data page.data

/-- The text `needle` occurs somewhere in `page`. -/
def occursIn (needle page : String) : Prop := needle.data <:+: page.data

instance (needle page : String) : Decidable (occursIn needle page) := by
  unfold occursIn; infer_instance

/-! ## Expected values used in the statements -/

/-- The configuration object written in `getCentralAuthInstance`, for a load-time
and a request-time environment. -/
def configAt (loadEnv env : Env) : Config :=
  { clientId := env.AUTH_ORGANIZATION_ID
    secret := env.AUTH_SECRET
    authBaseUrl := env.AUTH_BASE_URL
    callbackUrl := baseUrl loadEnv ++ "/api/auth/callback"
    debug := true }

/-- The client object a handler obtains when the allocation count is `heap`. -/
def clientAt (loadEnv env : Env) (heap : Nat) : AuthClient :=
  { id := heap, config := configAt loadEnv env }

/-- The five routes that use a client. -/
def clientRoutes : List Route := [.login, .callback, .user, .logout, .profile]

/-- The six strings of the table: the five messages and the fallback. -/
def tableMessages : List String :=
  errors.map Prod.snd ++ ["An error occurred."]

/-- The results `getErrorMessage` can have. -/
def possibleResults : List JsValue :=
  (errors.map fun kv => JsValue.string kv.2) ++
    [.builtinFunction "Object"] ++ (objectPrototypeMethods.map JsValue.builtinFunction) ++
    [.objectPrototype, .string "An error occurred."]


/-- The completion is a throw. -/
def Completion.throws {α : Type} : Completion α → Bool
  | .returned _ => false
  | .threw _ => true

/-- The run of an authentication handler on a request whose response has not
been started, spelled out: the construction, then the call with what the
library did, then the `catch` block when either threw; its redirect throws when
the operation had already responded. -/
def authShape (env : Env) (heap : Nat) (cfg : Config) (ctor : Completion Unit) (op : Op)
    (req : Request) (res : Response) (options : Option Options) (out : OpOutcome)
    (label target : String) : Completion Unit × World :=
  match ctor with
  | .threw e =>
    (.returned (), { env := env, heap := heap + 1, events :=
      [.construct heap cfg, .console label (some e), .byHandler res (.redirect target)] })
  | .returned _ =>
    match out.result with
    | .returned _ =>
      (.returned (), { env := env, heap := heap + 1, events :=
        [.construct heap cfg, .call heap op req (some res) options] ++
          out.actions.map (Event.byClient res) })
    | .threw e =>
      if out.actions.isEmpty then
        (.returned (), { env := env, heap := heap + 1, events :=
          [.construct heap cfg, .call heap op req (some res) options,
           .console label (some e), .byHandler res (.redirect target)] })
      else
        (.threw headersSentError, { env := env, heap := heap + 1, events :=
          ([.construct heap cfg, .call heap op req (some res) options] ++
            out.actions.map (Event.byClient res)) ++ [.console label (some e)] })

/-! ## Concrete inputs -/

/-- An environment with every variable set. -/
def sampleEnv : Env :=
  { BASE_URL := some "https://app.example"
    AUTH_ORGANIZATION_ID := some "org-1"
    AUTH_SECRET := some "s3cret"
    AUTH_BASE_URL := some "https://auth.example" }

/-- The same environment after `BASE_URL` has been changed. -/
def movedEnv : Env := { sampleEnv with BASE_URL := some "https://moved.example" }

/-- A request without query parameters. -/
def sampleRequest : Request :=
  { queryError := .undefined, querySuccess := .undefined, rest := "GET" }

/-- A response object. -/
def sampleResponse : Response := { handle := 7 }

/-- A user profile. -/
def sampleUser : User := { email := "ada@example.org", gravatar := "https://gravatar.example/ada" }

/-- A library in which everything returns: login redirects to the provider, the
other operations send a body, and a user is known. -/
def workingLibrary : AuthLibrary :=
  { construct := fun _ => .returned ()
    loginHTTP := fun _ _ _ o =>
      { actions := [.redirect ("https://auth.example/login?to=" ++ o.returnTo)],
        result := .returned () }
    callbackHTTP := fun _ _ _ => { actions := [.redirect "/profile"], result := .returned () }
    userHTTP := fun _ _ _ => { actions := [.send "ada@example.org"], result := .returned () }
    logoutHTTP := fun _ _ _ o => { actions := [.redirect o.returnTo], result := .returned () }
    getUserDataHTTP := fun _ _ => .returned (some sampleUser) }

/-- A library whose constructor returns and whose operations all throw; the
login operation has already redirected when it throws. -/
def failingLibrary : AuthLibrary :=
  { construct := fun _ => .returned ()
    loginHTTP := fun _ _ _ _ =>
      { actions := [.redirect "https://auth.example/login"], result := .threw ⟨"network"⟩ }
    callbackHTTP := fun _ _ _ => { actions := [], result := .threw ⟨"bad state"⟩ }
    userHTTP := fun _ _ _ => { actions := [], result := .threw ⟨"no session"⟩ }
    logoutHTTP := fun _ _ _ _ => { actions := [], result := .threw ⟨"no session"⟩ }
    getUserDataHTTP := fun _ _ => .threw ⟨"no session"⟩ }

/-- A library whose constructor throws. -/
def brokenLibrary : AuthLibrary :=
  { workingLibrary with construct := fun _ => .threw ⟨"missing secret"⟩ }

set_option maxRecDepth 100000

/-! ## Lemmas on the observations -/

theorem handlerActions_append (xs ys : List Event) :
    handlerActions (xs ++ ys) = handlerActions xs ++ handlerActions ys := by
  induction xs with
  | nil => rfl
  | cons x xs ih => cases x <;> simp [handlerActions, ih]

theorem responseActions_append (xs ys : List Event) :
    responseActions (xs ++ ys) = responseActions xs ++ responseActions ys := by
  induction xs with
  | nil => rfl
  | cons x xs ih => cases x <;> simp [responseActions, ih]

theorem calls_append (xs ys : List Event) : calls (xs ++ ys) = calls xs ++ calls ys := by
  induction xs with
  | nil => rfl
  | cons x xs ih => cases x <;> simp [calls, ih]

theorem constructions_append (xs ys : List Event) :
    constructions (xs ++ ys) = constructions xs ++ constructions ys := by
  induction xs with
  | nil => rfl
  | cons x xs ih => cases x <;> simp [constructions, ih]

theorem clientIds_append (xs ys : List Event) :
    clientIds (xs ++ ys) = clientIds xs ++ clientIds ys := by
  induction xs with
  | nil => rfl
  | cons x xs ih => cases x <;> simp [clientIds, ih]

theorem handlerActions_byClient (res : Response) (as : List ResAction) :
    handlerActions (as.map (Event.byClient res)) = [] := by
  induction as with
  | nil => rfl
  | cons a as ih => simp [handlerActions, ih]

theorem responseActions_byClient (res : Response) (as : List ResAction) :
    responseActions (as.map (Event.byClient res)) = as := by
  induction as with
  | nil => rfl
  | cons a as ih => simp [responseActions, ih]

theorem calls_byClient (res : Response) (as : List ResAction) : calls (as.map (Event.byClient res)) = [] := by
  induction as with
  | nil => rfl
  | cons a as ih => simp [calls, ih]

theorem constructions_byClient (res : Response) (as : List ResAction) :
    constructions (as.map (Event.byClient res)) = [] := by
  induction as with
  | nil => rfl
  | cons a as ih => simp [constructions, ih]

theorem clientIds_byClient (res : Response) (as : List ResAction) :
    clientIds (as.map (Event.byClient res)) = [] := by
  induction as with
  | nil => rfl
  | cons a as ih => simp [clientIds, ih]

/-! ## The runs of the handlers -/

theorem getCentralAuthInstance_run (lib : AuthLibrary) (loadEnv : Env) (w : World) :
    getCentralAuthInstance lib loadEnv w =
      match lib.construct (configAt loadEnv w.env) with
      | .returned _ =>
        (.returned (clientAt loadEnv w.env w.heap),
          { w with heap := w.heap + 1,
                   events := w.events ++ [.construct w.heap (configAt loadEnv w.env)] })
      | .threw e =>
        (.threw e,
          { w with heap := w.heap + 1,
                   events := w.events ++ [.construct w.heap (configAt loadEnv w.env)] }) := by
  simp only [getCentralAuthInstance, newCentralAuthHTTPClass, bind, Js.bind, processEnv,
    allocate, emit, configAt, clientAt, pure, Js.pure]
  cases h : lib.construct _ <;> simp [settle, Js.pure, Js.throw, h]

theorem headersSent_append (xs ys : List Event) (res : Response) :
    headersSent (xs ++ ys) res = (headersSent xs res || headersSent ys res) := by
  simp [headersSent, List.any_append]

theorem headersSent_byClient (res : Response) (as : List ResAction) :
    headersSent (as.map (Event.byClient res)) res = !as.isEmpty := by
  cases as with
  | nil => rfl
  | cons a as => simp [headersSent]

theorem authShape_of_tryCatch (env : Env) (heap : Nat) (lib : AuthLibrary) (loadEnv : Env)
    (op : Op) (req : Request) (res : Response) (options : Option Options)
    (outcome : AuthClient → OpOutcome) (label target : String) :
    Js.tryCatch
        (Js.bind (getCentralAuthInstance lib loadEnv) fun authClient =>
          callHTTP authClient op req res options (outcome authClient))
        (fun error => Js.bind (consoleError label error) fun _ => resRedirect res target)
        (World.start env heap) =
      authShape env heap (configAt loadEnv env) (lib.construct (configAt loadEnv env))
        op req res options (outcome (clientAt loadEnv env heap)) label target := by
  simp only [Js.tryCatch, Js.bind, getCentralAuthInstance_run, authShape, World.start]
  cases h1 : lib.construct (configAt loadEnv env) with
  | threw e => simp [consoleError, resRedirect, emit, Js.bind, headersSent]
  | returned u =>
    simp only [callHTTP, bind, Js.bind, emit, emitAll, clientAt]
    cases h2 : (outcome _).result with
    | returned u => simp [settle, Js.pure, h2]
    | threw e =>
      cases h3 : (outcome { id := heap, config := configAt loadEnv env }).actions with
      | nil => simp [settle, Js.throw, h2, h3, consoleError, resRedirect, emit, Js.bind,
          headersSent]
      | cons a as => simp [settle, Js.throw, h2, h3, consoleError, resRedirect, emit, Js.bind,
          headersSent]

theorem profileHandler_run (lib : AuthLibrary) (loadEnv env : Env) (heap : Nat)
    (req : Request) (res : Response) :
    profileHandler lib loadEnv req res (World.start env heap) =
      match lib.construct (configAt loadEnv env) with
      | .threw _ =>
        (.returned (), { env := env, heap := heap + 1, events :=
          [.construct heap (configAt loadEnv env),
           .console "Could not fetch fresh user data" none,
           .byHandler res (.redirect "/?error=not_logged_in")] })
      | .returned _ =>
        match lib.getUserDataHTTP (clientAt loadEnv env heap) req with
        | .threw _ =>
          (.returned (), { env := env, heap := heap + 1, events :=
            [.construct heap (configAt loadEnv env),
             .call heap .getUserDataHTTP req none none,
             .console "Could not fetch fresh user data" none,
             .byHandler res (.redirect "/?error=not_logged_in")] })
        | .returned user =>
          (.returned (), { env := env, heap := heap + 1, events :=
            [.construct heap (configAt loadEnv env),
             .call heap .getUserDataHTTP req none none,
             .byHandler res (.send (profilePage req user))] }) := by
  simp only [profileHandler, fetchUser, tryCatch, tryCatchThe, MonadExcept.tryCatch,
    Js.tryCatch, bind, Js.bind, getCentralAuthInstance_run, World.start]
  cases h1 : lib.construct (configAt loadEnv env) with
  | threw e => simp [consoleLog, resRedirect, emit, Js.bind, pure, Js.pure, headersSent]
  | returned u =>
    simp only [emit, clientAt]
    cases h2 : lib.getUserDataHTTP _ req with
    | returned user => simp [settle, Js.pure, pure, resSend, emit, headersSent]
    | threw e =>
      simp [settle, Js.throw, consoleLog, resRedirect, emit, Js.bind, pure, Js.pure,
        headersSent]

theorem lookup_errors_mem (k m : String) (h : errors.lookup k = some m) :
    JsValue.string m ∈ possibleResults := by
  simp only [errors, List.lookup] at h
  repeat' split at h
  all_goals first
    | (cases h; decide)
    | (exact absurd h (by simp))

theorem truthy_lookup_errors (k m : String) (h : errors.lookup k = some m) :
    truthy (.string m) = true := by
  simp only [errors, List.lookup] at h
  repeat' split at h
  all_goals first
    | (cases h; decide)
    | (exact absurd h (by simp))

theorem getErrorMessage_mem_possibleResults (v : JsValue) :
    getErrorMessage v ∈ possibleResults := by
  simp only [getErrorMessage, getProperty]
  generalize toStr v = k
  cases h : errors.lookup k with
  | some m =>
    simp only [jsOr, truthy_lookup_errors k m h, if_true]
    exact lookup_errors_mem k m h
  | none =>
    simp only [objectPrototypeGet]
    split_ifs with h1 h2 h3
    · decide
    · simp only [jsOr, truthy, if_true]
      simp only [possibleResults, List.mem_append, List.mem_map]
      exact Or.inl (Or.inr ⟨k, h2, rfl⟩)
    · decide
    · decide

theorem getErrorMessage_fallback (s : String) (hkey : s ∉ errors.map Prod.fst)
    (hc : s ≠ "constructor") (hm : s ∉ objectPrototypeMethods) (hp : s ≠ "__proto__") :
    getErrorMessage (.string s) = .string "An error occurred." := by
  have hl : errors.lookup s = none := by
    simp only [errors, List.map, List.mem_cons, List.mem_nil_iff, or_false, not_or] at hkey
    obtain ⟨h1, h2, h3, h4, h5⟩ := hkey
    have e1 : (s == "not_logged_in") = false := beq_eq_false_iff_ne.mpr h1
    have e2 : (s == "logout_failed") = false := beq_eq_false_iff_ne.mpr h2
    have e3 : (s == "callback_failed") = false := beq_eq_false_iff_ne.mpr h3
    have e4 : (s == "login_failed") = false := beq_eq_false_iff_ne.mpr h4
    have e5 : (s == "user_info_failed") = false := beq_eq_false_iff_ne.mpr h5
    simp only [errors, List.lookup, e1, e2, e3, e4, e5]
  simp [getErrorMessage, getProperty, toStr, hl, objectPrototypeGet, hc, hm, hp, jsOr, truthy]

/-! ## Observations on the spelled-out run -/

theorem authShape_completion (env : Env) (heap : Nat) (cfg : Config) (ctor : Completion Unit)
    (op : Op) (req : Request) (res : Response) (options : Option Options) (out : OpOutcome)
    (label target : String) :
    (authShape env heap cfg ctor op req res options out label target).1 =
      if ctor.throws || !out.result.throws || out.actions.isEmpty then .returned ()
      else .threw headersSentError := by
  unfold authShape
  cases ctor <;> cases out.result <;> cases out.actions <;> simp [Completion.throws]

theorem authShape_heap (env : Env) (heap : Nat) (cfg : Config) (ctor : Completion Unit)
    (op : Op) (req : Request) (res : Response) (options : Option Options) (out : OpOutcome)
    (label target : String) :
    (authShape env heap cfg ctor op req res options out label target).2.heap = heap + 1 := by
  unfold authShape
  cases ctor <;> cases out.result <;> cases out.actions <;> rfl

theorem authShape_handlerActions (env : Env) (heap : Nat) (cfg : Config)
    (ctor : Completion Unit) (op : Op) (req : Request) (res : Response)
    (options : Option Options) (out : OpOutcome) (label target : String) :
    handlerActions (authShape env heap cfg ctor op req res options out label target).2.events =
      if ctor.throws || (out.result.throws && out.actions.isEmpty) then [.redirect target]
      else [] := by
  unfold authShape
  cases ctor <;> cases h : out.result <;> cases h2 : out.actions <;>
    simp [handlerActions, handlerActions_append, handlerActions_byClient, Completion.throws]

theorem authShape_responseActions (env : Env) (heap : Nat) (cfg : Config)
    (ctor : Completion Unit) (op : Op) (req : Request) (res : Response)
    (options : Option Options) (out : OpOutcome) (label target : String)
    (hc : ctor.throws = false) (ho : out.result.throws = false) :
    responseActions (authShape env heap cfg ctor op req res options out label target).2.events =
      out.actions := by
  unfold authShape
  cases ctor <;> cases h : out.result <;>
    simp_all [responseActions, responseActions_append, responseActions_byClient,
      Completion.throws]

theorem authShape_calls (env : Env) (heap : Nat) (cfg : Config)
    (ctor : Completion Unit) (op : Op) (req : Request) (res : Response)
    (options : Option Options) (out : OpOutcome) (label target : String) :
    calls (authShape env heap cfg ctor op req res options out label target).2.events =
      if ctor.throws then [] else [.call heap op req (some res) options] := by
  unfold authShape
  cases ctor <;> cases h : out.result <;> cases h2 : out.actions <;>
    simp [calls, calls_append, calls_byClient, Completion.throws]

theorem authShape_constructions (env : Env) (heap : Nat) (cfg : Config)
    (ctor : Completion Unit) (op : Op) (req : Request) (res : Response)
    (options : Option Options) (out : OpOutcome) (label target : String) :
    constructions (authShape env heap cfg ctor op req res options out label target).2.events =
      [(heap, cfg)] := by
  unfold authShape
  cases ctor <;> cases h : out.result <;> cases h2 : out.actions <;>
    simp [constructions, constructions_append, constructions_byClient]

theorem authShape_clientIds (env : Env) (heap : Nat) (cfg : Config)
    (ctor : Completion Unit) (op : Op) (req : Request) (res : Response)
    (options : Option Options) (out : OpOutcome) (label target : String) :
    ∀ i ∈ clientIds (authShape env heap cfg ctor op req res options out label target).2.events,
      i = heap := by
  unfold authShape
  cases ctor <;> cases h : out.result <;> cases h2 : out.actions <;>
    simp [clientIds, clientIds_append, clientIds_byClient]

theorem authShape_on_throw (env : Env) (heap : Nat) (cfg : Config) (ctor : Completion Unit)
    (op : Op) (req : Request) (res : Response) (options : Option Options) (out : OpOutcome)
    (label target : String)
    (h : ctor.throws = true ∨ (out.result.throws = true ∧ out.actions = [])) :
    (authShape env heap cfg ctor op req res options out label target).1 = .returned () ∧
    handlerActions (authShape env heap cfg ctor op req res options out label target).2.events =
      [.redirect target] ∧
    responseActions (authShape env heap cfg ctor op req res options out label target).2.events =
      [.redirect target] := by
  unfold authShape
  cases ctor with
  | threw e => simp [handlerActions, responseActions]
  | returned u =>
    rcases h with h | ⟨h1, h2⟩
    · simp [Completion.throws] at h
    · cases h3 : out.result with
      | returned u => simp [h3, Completion.throws] at h1
      | threw e => simp [h2, handlerActions, responseActions]

/-! ## The events of each route -/

theorem World.start_env (env : Env) (heap : Nat) : (World.start env heap).env = env := rfl

theorem World.start_heap (env : Env) (heap : Nat) : (World.start env heap).heap = heap := rfl

theorem run_login (lib : AuthLibrary) (loadEnv env : Env) (heap : Nat) (req : Request)
    (res : Response) :
    (handle lib loadEnv .login req res).run (World.start env heap) =
      authShape env heap (configAt loadEnv env)
        (lib.construct (configAt loadEnv env)) .loginHTTP req res
        (some { returnTo := baseUrl loadEnv ++ "/profile" })
        (lib.loginHTTP (clientAt loadEnv env heap) req res
          { returnTo := baseUrl loadEnv ++ "/profile" })
        "Login error:" "/?error=login_failed" :=
  authShape_of_tryCatch env heap lib loadEnv .loginHTTP req res _
    (fun c => lib.loginHTTP c req res { returnTo := baseUrl loadEnv ++ "/profile" }) _ _

theorem run_callback (lib : AuthLibrary) (loadEnv env : Env) (heap : Nat) (req : Request)
    (res : Response) :
    (handle lib loadEnv .callback req res).run (World.start env heap) =
      authShape env heap (configAt loadEnv env)
        (lib.construct (configAt loadEnv env)) .callbackHTTP req res none
        (lib.callbackHTTP (clientAt loadEnv env heap) req res)
        "Callback error:" "/?error=callback_failed" :=
  authShape_of_tryCatch env heap lib loadEnv .callbackHTTP req res none
    (fun c => lib.callbackHTTP c req res) _ _

theorem run_user (lib : AuthLibrary) (loadEnv env : Env) (heap : Nat) (req : Request)
    (res : Response) :
    (handle lib loadEnv .user req res).run (World.start env heap) =
      authShape env heap (configAt loadEnv env)
        (lib.construct (configAt loadEnv env)) .userHTTP req res none
        (lib.userHTTP (clientAt loadEnv env heap) req res)
        "User info error:" "/?error=user_info_failed" :=
  authShape_of_tryCatch env heap lib loadEnv .userHTTP req res none
    (fun c => lib.userHTTP c req res) _ _

theorem run_logout (lib : AuthLibrary) (loadEnv env : Env) (heap : Nat) (req : Request)
    (res : Response) :
    (handle lib loadEnv .logout req res).run (World.start env heap) =
      authShape env heap (configAt loadEnv env)
        (lib.construct (configAt loadEnv env)) .logoutHTTP req res
        (some { returnTo := baseUrl loadEnv })
        (lib.logoutHTTP (clientAt loadEnv env heap) req res { returnTo := baseUrl loadEnv })
        "Logout error:" "/?error=logout_failed" :=
  authShape_of_tryCatch env heap lib loadEnv .logoutHTTP req res _
    (fun c => lib.logoutHTTP c req res { returnTo := baseUrl loadEnv }) _ _

theorem run_profile (lib : AuthLibrary) (loadEnv env : Env) (heap : Nat) (req : Request)
    (res : Response) :
    (handle lib loadEnv .profile req res).run (World.start env heap) =
      match lib.construct (configAt loadEnv env) with
      | .threw _ =>
        (.returned (), { env := env, heap := heap + 1, events :=
          [.construct heap (configAt loadEnv env),
           .console "Could not fetch fresh user data" none,
           .byHandler res (.redirect "/?error=not_logged_in")] })
      | .returned _ =>
        match lib.getUserDataHTTP (clientAt loadEnv env heap) req with
        | .threw _ =>
          (.returned (), { env := env, heap := heap + 1, events :=
            [.construct heap (configAt loadEnv env),
             .call heap .getUserDataHTTP req none none,
             .console "Could not fetch fresh user data" none,
             .byHandler res (.redirect "/?error=not_logged_in")] })
        | .returned user =>
          (.returned (), { env := env, heap := heap + 1, events :=
            [.construct heap (configAt loadEnv env),
             .call heap .getUserDataHTTP req none none,
             .byHandler res (.send (profilePage req user))] }) :=
  profileHandler_run lib loadEnv env heap req res

theorem run_home (lib : AuthLibrary) (loadEnv env : Env) (heap : Nat) (req : Request)
    (res : Response) :
    (handle lib loadEnv .home req res).run (World.start env heap) =
      (.returned (),
        { env := env, heap := heap, events := [.byHandler res (.send (homePage req))] }) := by
  simp [handle, Js.run, homeHandler, resSend, emit, World.start, headersSent]

/-! ## The claims -/

/-- C1: `getErrorMessage` returns the fixed message for each of the five
symbolic codes; the five messages are pairwise distinct and none of them is the
fallback message. -/
theorem getErrorMessage_known_codes :
    getErrorMessage (.string "not_logged_in") =
        .string "You need to be logged in to view the profile." ∧
    getErrorMessage (.string "logout_failed") = .string "Logout failed. Please try again." ∧
    getErrorMessage (.string "callback_failed") =
        .string "Authentication callback failed. Please try logging in again." ∧
    getErrorMessage (.string "login_failed") = .string "Login failed. Please try again." ∧
    getErrorMessage (.string "user_info_failed") =
        .string "Failed to get user information. Please try again." ∧
    (["not_logged_in", "logout_failed", "callback_failed", "login_failed",
        "user_info_failed"].map fun code => getErrorMessage (.string code)).Nodup ∧
    JsValue.string "An error occurred." ∉
      ["not_logged_in", "logout_failed", "callback_failed", "login_failed",
        "user_info_failed"].map fun code => getErrorMessage (.string code) := by
  decide

/-- C2, evaluated on the code: for a name that the object literal inherits from
`Object.prototype` the lookup is truthy, so `getErrorMessage` returns the inherited
member and not the fallback string: the function `Object` for `constructor`, the
method for `toString`, the prototype object for `__proto__`.  The empty string and
a name that is neither a key nor inherited do get the fallback. -/
theorem getErrorMessage_inherited_names :
    getErrorMessage (.string "constructor") = .builtinFunction "Object" ∧
    getErrorMessage (.string "toString") = .builtinFunction "toString" ∧
    getErrorMessage (.string "__proto__") = .objectPrototype ∧
    toStr (getErrorMessage (.string "constructor")) =
      "function Object() \x7b [native code] \x7d" ∧
    getErrorMessage (.string "") = .string "An error occurred." ∧
    getErrorMessage (.string "no_such_code") = .string "An error occurred." := by
  decide

/-- C3, as stated, fails when the operation has started the response before it
throws: `loginHTTP` of this library redirects to the provider and then throws;
the handler catches that, but its own `res.redirect` throws on the response
already started, so the handler does not complete normally and issues no
redirect. -/
theorem login_redirect_fails_after_response :
    (failingLibrary.loginHTTP (clientAt sampleEnv sampleEnv 0) sampleRequest sampleResponse
        { returnTo := baseUrl sampleEnv ++ "/profile" }).result.throws = true ∧
    completionOf failingLibrary sampleEnv sampleEnv 0 .login sampleRequest sampleResponse =
      .threw headersSentError ∧
    handlerActions (eventsOf failingLibrary sampleEnv sampleEnv 0 .login sampleRequest
        sampleResponse) = [] ∧
    responseActions (eventsOf failingLibrary sampleEnv sampleEnv 0 .login sampleRequest
        sampleResponse) = [.redirect "https://auth.example/login"] := by
  decide

/-- C3, amended: on each of the four authentication routes, when the
construction of the client throws, or the delegated operation throws without
having started a response, the handler completes normally (the exception is
caught and not rethrown) and its only call on the response is one redirect to
`/?error=` followed by the code of the route. -/
theorem auth_routes_redirect_on_throw (lib : AuthLibrary) (loadEnv env : Env) (heap : Nat)
    (req : Request) (res : Response) :
    (((lib.construct (configAt loadEnv env)).throws = true ∨
        ((lib.loginHTTP (clientAt loadEnv env heap) req res
            { returnTo := baseUrl loadEnv ++ "/profile" }).result.throws = true ∧
         (lib.loginHTTP (clientAt loadEnv env heap) req res
            { returnTo := baseUrl loadEnv ++ "/profile" }).actions = [])) →
      completionOf lib loadEnv env heap .login req res = .returned () ∧
      handlerActions (eventsOf lib loadEnv env heap .login req res) =
        [.redirect "/?error=login_failed"] ∧
      responseActions (eventsOf lib loadEnv env heap .login req res) =
        [.redirect "/?error=login_failed"]) ∧
    (((lib.construct (configAt loadEnv env)).throws = true ∨
        ((lib.callbackHTTP (clientAt loadEnv env heap) req res).result.throws = true ∧
         (lib.callbackHTTP (clientAt loadEnv env heap) req res).actions = [])) →
      completionOf lib loadEnv env heap .callback req res = .returned () ∧
      handlerActions (eventsOf lib loadEnv env heap .callback req res) =
        [.redirect "/?error=callback_failed"] ∧
      responseActions (eventsOf lib loadEnv env heap .callback req res) =
        [.redirect "/?error=callback_failed"]) ∧
    (((lib.construct (configAt loadEnv env)).throws = true ∨
        ((lib.userHTTP (clientAt loadEnv env heap) req res).result.throws = true ∧
         (lib.userHTTP (clientAt loadEnv env heap) req res).actions = [])) →
      completionOf lib loadEnv env heap .user req res = .returned () ∧
      handlerActions (eventsOf lib loadEnv env heap .user req res) =
        [.redirect "/?error=user_info_failed"] ∧
      responseActions (eventsOf lib loadEnv env heap .user req res) =
        [.redirect "/?error=user_info_failed"]) ∧
    (((lib.construct (configAt loadEnv env)).throws = true ∨
        ((lib.logoutHTTP (clientAt loadEnv env heap) req res
            { returnTo := baseUrl loadEnv }).result.throws = true ∧
         (lib.logoutHTTP (clientAt loadEnv env heap) req res
            { returnTo := baseUrl loadEnv }).actions = [])) →
      completionOf lib loadEnv env heap .logout req res = .returned () ∧
      handlerActions (eventsOf lib loadEnv env heap .logout req res) =
        [.redirect "/?error=logout_failed"] ∧
      responseActions (eventsOf lib loadEnv env heap .logout req res) =
        [.redirect "/?error=logout_failed"]) := by
  refine ⟨?_, ?_, ?_, ?_⟩ <;> intro h
  · simp only [completionOf, eventsOf, run_login]
    exact authShape_on_throw _ _ _ _ _ _ _ _ _ _ _ h
  · simp only [completionOf, eventsOf, run_callback]
    exact authShape_on_throw _ _ _ _ _ _ _ _ _ _ _ h
  · simp only [completionOf, eventsOf, run_user]
    exact authShape_on_throw _ _ _ _ _ _ _ _ _ _ _ h
  · simp only [completionOf, eventsOf, run_logout]
    exact authShape_on_throw _ _ _ _ _ _ _ _ _ _ _ h

/-- Witness for C3: a library whose constructor throws, on the login route, and
a library whose operations throw before they respond, on the other three. -/
theorem auth_routes_redirect_on_throw_witness :
    (completionOf brokenLibrary sampleEnv sampleEnv 0 .login sampleRequest sampleResponse =
        .returned () ∧
      handlerActions (eventsOf brokenLibrary sampleEnv sampleEnv 0 .login sampleRequest
        sampleResponse) = [.redirect "/?error=login_failed"] ∧
      responseActions (eventsOf brokenLibrary sampleEnv sampleEnv 0 .login sampleRequest
        sampleResponse) = [.redirect "/?error=login_failed"]) ∧
    (completionOf failingLibrary sampleEnv sampleEnv 0 .callback sampleRequest sampleResponse =
        .returned () ∧
      handlerActions (eventsOf failingLibrary sampleEnv sampleEnv 0 .callback sampleRequest
        sampleResponse) = [.redirect "/?error=callback_failed"] ∧
      responseActions (eventsOf failingLibrary sampleEnv sampleEnv 0 .callback sampleRequest
        sampleResponse) = [.redirect "/?error=callback_failed"]) ∧
    (completionOf failingLibrary sampleEnv sampleEnv 0 .user sampleRequest sampleResponse =
        .returned () ∧
      handlerActions (eventsOf failingLibrary sampleEnv sampleEnv 0 .user sampleRequest
        sampleResponse) = [.redirect "/?error=user_info_failed"] ∧
      responseActions (eventsOf failingLibrary sampleEnv sampleEnv 0 .user sampleRequest
        sampleResponse) = [.redirect "/?error=user_info_failed"]) ∧
    (completionOf failingLibrary sampleEnv sampleEnv 0 .logout sampleRequest sampleResponse =
        .returned () ∧
      handlerActions (eventsOf failingLibrary sampleEnv sampleEnv 0 .logout sampleRequest
        sampleResponse) = [.redirect "/?error=logout_failed"] ∧
      responseActions (eventsOf failingLibrary sampleEnv sampleEnv 0 .logout sampleRequest
        sampleResponse) = [.redirect "/?error=logout_failed"]) :=
  ⟨(auth_routes_redirect_on_throw brokenLibrary sampleEnv sampleEnv 0 sampleRequest
      sampleResponse).1 (Or.inl (by decide)),
   (auth_routes_redirect_on_throw failingLibrary sampleEnv sampleEnv 0 sampleRequest
      sampleResponse).2.1 (Or.inr (by decide)),
   (auth_routes_redirect_on_throw failingLibrary sampleEnv sampleEnv 0 sampleRequest
      sampleResponse).2.2.1 (Or.inr (by decide)),
   (auth_routes_redirect_on_throw failingLibrary sampleEnv sampleEnv 0 sampleRequest
      sampleResponse).2.2.2 (Or.inr (by decide))⟩

/-- C4: on `/profile`, when `getUserDataHTTP` returns a user profile the handler
makes exactly one call on the response, `res.send` of a page that contains the
profile's avatar address as the `src` of the `img` element and the profile's
email, and no redirect; when the construction or `getUserDataHTTP` throws, its
only call on the response is the redirect to `/?error=not_logged_in`.  The
handler completes normally in both cases. -/
theorem profile_route_renders_or_redirects (lib : AuthLibrary) (loadEnv env : Env)
    (heap : Nat) (req : Request) (res : Response) :
    (∀ u : User, (lib.construct (configAt loadEnv env)).throws = false →
      lib.getUserDataHTTP (clientAt loadEnv env heap) req = .returned (some u) →
      handlerActions (eventsOf lib loadEnv env heap .profile req res) =
        [.send (profilePage req (some u))] ∧
      occursIn ("<img src=\"" ++ u.gravatar ++ "\" alt=\"User Avatar\">")
        (profilePage req (some u)) ∧
      occursIn ("<p><strong>Email:</strong> " ++ u.email ++ "</p>")
        (profilePage req (some u)) ∧
      completionOf lib loadEnv env heap .profile req res = .returned ()) ∧
    (((lib.construct (configAt loadEnv env)).throws = true ∨
        (lib.getUserDataHTTP (clientAt loadEnv env heap) req).throws = true) →
      handlerActions (eventsOf lib loadEnv env heap .profile req res) =
        [.redirect "/?error=not_logged_in"] ∧
      completionOf lib loadEnv env heap .profile req res = .returned ()) := by
  constructor
  · intro u hc hu
    refine ⟨?_, ?_, ?_, ?_⟩
    · simp only [eventsOf, run_profile, hu]
      cases h : lib.construct (configAt loadEnv env) with
      | returned _ => simp [handlerActions]
      | threw e => simp [h, Completion.throws] at hc
    · refine ⟨(profileHead ++ successBlock req ++ profileGap1 ++ errorBlock req ++ profileGap2
          ++ "\n          <div class=\"user-info\">\n            ").data,
        ("\n            <p><strong>Email:</strong> " ++ u.email ++ userInfoTail
          ++ profileTail).data, ?_⟩
      simp [profilePage, userBlock, userInfoHead, userInfoMid, String.data_append]
    · refine ⟨(profileHead ++ successBlock req ++ profileGap1 ++ errorBlock req ++ profileGap2
          ++ userInfoHead ++ u.gravatar ++ "\" alt=\"User Avatar\">\n            ").data,
        ("\n          </div>\n        " ++ profileTail).data, ?_⟩
      simp [profilePage, userBlock, userInfoMid, userInfoTail, String.data_append]
    · simp only [completionOf, run_profile, hu]
      cases lib.construct (configAt loadEnv env) <;> rfl
  · intro h
    simp only [eventsOf, completionOf, run_profile]
    cases h1 : lib.construct (configAt loadEnv env) with
    | threw e => simp [handlerActions]
    | returned _ =>
      cases h2 : lib.getUserDataHTTP (clientAt loadEnv env heap) req with
      | threw e => simp [handlerActions]
      | returned user => simp [h1, h2, Completion.throws] at h

/-- Witness for C4: a library that knows a user, and one whose lookup throws. -/
theorem profile_route_renders_or_redirects_witness :
    handlerActions (eventsOf workingLibrary sampleEnv sampleEnv 0 .profile sampleRequest
        sampleResponse) = [.send (profilePage sampleRequest (some sampleUser))] ∧
    occursIn "<img src=\"https://gravatar.example/ada\" alt=\"User Avatar\">"
      (profilePage sampleRequest (some sampleUser)) ∧
    occursIn "<p><strong>Email:</strong> ada@example.org</p>"
      (profilePage sampleRequest (some sampleUser)) ∧
    handlerActions (eventsOf failingLibrary sampleEnv sampleEnv 0 .profile sampleRequest
        sampleResponse) = [.redirect "/?error=not_logged_in"] :=
  have h := (profile_route_renders_or_redirects workingLibrary sampleEnv sampleEnv 0
    sampleRequest sampleResponse).1 sampleUser (by decide) (by decide)
  have h2 := (profile_route_renders_or_redirects failingLibrary sampleEnv sampleEnv 0
    sampleRequest sampleResponse).2 (Or.inr (by decide))
  ⟨h.1, h.2.1, h.2.2.1, h2.1⟩

/-- C5: on each of the four authentication routes, when the construction and
the delegated operation both complete without throwing, the handler itself makes
no call on the response, so the response actions are exactly those of the
operation. -/
theorem auth_routes_silent_on_success (lib : AuthLibrary) (loadEnv env : Env) (heap : Nat)
    (req : Request) (res : Response)
    (hc : (lib.construct (configAt loadEnv env)).throws = false) :
    ((lib.loginHTTP (clientAt loadEnv env heap) req res
          { returnTo := baseUrl loadEnv ++ "/profile" }).result.throws = false →
      handlerActions (eventsOf lib loadEnv env heap .login req res) = [] ∧
      responseActions (eventsOf lib loadEnv env heap .login req res) =
        (lib.loginHTTP (clientAt loadEnv env heap) req res
          { returnTo := baseUrl loadEnv ++ "/profile" }).actions) ∧
    ((lib.callbackHTTP (clientAt loadEnv env heap) req res).result.throws = false →
      handlerActions (eventsOf lib loadEnv env heap .callback req res) = [] ∧
      responseActions (eventsOf lib loadEnv env heap .callback req res) =
        (lib.callbackHTTP (clientAt loadEnv env heap) req res).actions) ∧
    ((lib.userHTTP (clientAt loadEnv env heap) req res).result.throws = false →
      handlerActions (eventsOf lib loadEnv env heap .user req res) = [] ∧
      responseActions (eventsOf lib loadEnv env heap .user req res) =
        (lib.userHTTP (clientAt loadEnv env heap) req res).actions) ∧
    ((lib.logoutHTTP (clientAt loadEnv env heap) req res
          { returnTo := baseUrl loadEnv }).result.throws = false →
      handlerActions (eventsOf lib loadEnv env heap .logout req res) = [] ∧
      responseActions (eventsOf lib loadEnv env heap .logout req res) =
        (lib.logoutHTTP (clientAt loadEnv env heap) req res
          { returnTo := baseUrl loadEnv }).actions) := by
  refine ⟨?_, ?_, ?_, ?_⟩ <;> intro ho
  · simp only [eventsOf, run_login, authShape_handlerActions,
      authShape_responseActions _ _ _ _ _ _ _ _ _ _ _ hc ho, hc, ho]
    simp
  · simp only [eventsOf, run_callback, authShape_handlerActions,
      authShape_responseActions _ _ _ _ _ _ _ _ _ _ _ hc ho, hc, ho]
    simp
  · simp only [eventsOf, run_user, authShape_handlerActions,
      authShape_responseActions _ _ _ _ _ _ _ _ _ _ _ hc ho, hc, ho]
    simp
  · simp only [eventsOf, run_logout, authShape_handlerActions,
      authShape_responseActions _ _ _ _ _ _ _ _ _ _ _ hc ho, hc, ho]
    simp

/-- Witness for C5: the working library, whose login operation redirects to
the provider. -/
theorem auth_routes_silent_on_success_witness :
    handlerActions (eventsOf workingLibrary sampleEnv sampleEnv 0 .login sampleRequest
        sampleResponse) = [] ∧
    responseActions (eventsOf workingLibrary sampleEnv sampleEnv 0 .login sampleRequest
        sampleResponse) =
      [.redirect "https://auth.example/login?to=https://app.example/profile"] ∧
    responseActions (eventsOf workingLibrary sampleEnv sampleEnv 0 .logout sampleRequest
        sampleResponse) = [.redirect "https://app.example"] :=
  have h := auth_routes_silent_on_success workingLibrary sampleEnv sampleEnv 0 sampleRequest
    sampleResponse (by decide)
  ⟨(h.1 (by decide)).1, (h.1 (by decide)).2, (h.2.2.2 (by decide)).2⟩

/-- The events of a client route, for the lemmas that hold on all five. -/
theorem clientRoute_constructions (lib : AuthLibrary) (loadEnv env : Env) (heap : Nat)
    (route : Route) (req : Request) (res : Response) (h : route ∈ clientRoutes) :
    constructions (eventsOf lib loadEnv env heap route req res) =
      [(heap, configAt loadEnv env)] := by
  simp only [clientRoutes, List.mem_cons, List.mem_nil_iff, or_false] at h
  rcases h with h | h | h | h | h <;> subst h
  · simp only [eventsOf, run_login, authShape_constructions]
  · simp only [eventsOf, run_callback, authShape_constructions]
  · simp only [eventsOf, run_user, authShape_constructions]
  · simp only [eventsOf, run_logout, authShape_constructions]
  · simp only [eventsOf, run_profile]
    cases lib.construct (configAt loadEnv env) <;>
      cases lib.getUserDataHTTP (clientAt loadEnv env heap) req <;> simp [constructions]

theorem clientRoute_clientIds (lib : AuthLibrary) (loadEnv env : Env) (heap : Nat)
    (route : Route) (req : Request) (res : Response) (h : route ∈ clientRoutes) :
    ∀ i ∈ clientIds (eventsOf lib loadEnv env heap route req res), i = heap := by
  simp only [clientRoutes, List.mem_cons, List.mem_nil_iff, or_false] at h
  rcases h with h | h | h | h | h <;> subst h
  · simp only [eventsOf, run_login]; exact authShape_clientIds _ _ _ _ _ _ _ _ _ _ _
  · simp only [eventsOf, run_callback]; exact authShape_clientIds _ _ _ _ _ _ _ _ _ _ _
  · simp only [eventsOf, run_user]; exact authShape_clientIds _ _ _ _ _ _ _ _ _ _ _
  · simp only [eventsOf, run_logout]; exact authShape_clientIds _ _ _ _ _ _ _ _ _ _ _
  · simp only [eventsOf, run_profile]
    cases lib.construct (configAt loadEnv env) <;>
      cases lib.getUserDataHTTP (clientAt loadEnv env heap) req <;> simp [clientIds]

theorem clientRoute_heapAfter (lib : AuthLibrary) (loadEnv env : Env) (heap : Nat)
    (route : Route) (req : Request) (res : Response) (h : route ∈ clientRoutes) :
    heapAfter lib loadEnv env heap route req res = heap + 1 := by
  simp only [clientRoutes, List.mem_cons, List.mem_nil_iff, or_false] at h
  rcases h with h | h | h | h | h <;> subst h
  · simp only [heapAfter, run_login, authShape_heap]
  · simp only [heapAfter, run_callback, authShape_heap]
  · simp only [heapAfter, run_user, authShape_heap]
  · simp only [heapAfter, run_logout, authShape_heap]
  · simp only [heapAfter, run_profile]
    cases lib.construct (configAt loadEnv env) <;>
      cases lib.getUserDataHTTP (clientAt loadEnv env heap) req <;> rfl

theorem clientRoute_calls (lib : AuthLibrary) (loadEnv env : Env) (heap : Nat)
    (route : Route) (req : Request) (res : Response) (h : route ∈ clientRoutes) :
    calls (eventsOf lib loadEnv env heap route req res) =
      if (lib.construct (configAt loadEnv env)).throws then []
      else match route with
        | .home => []
        | .login => [.call heap .loginHTTP req (some res)
            (some { returnTo := baseUrl loadEnv ++ "/profile" })]
        | .callback => [.call heap .callbackHTTP req (some res) none]
        | .user => [.call heap .userHTTP req (some res) none]
        | .logout => [.call heap .logoutHTTP req (some res)
            (some { returnTo := baseUrl loadEnv })]
        | .profile => [.call heap .getUserDataHTTP req none none] := by
  simp only [clientRoutes, List.mem_cons, List.mem_nil_iff, or_false] at h
  rcases h with h | h | h | h | h <;> subst h
  · simp only [eventsOf, run_login, authShape_calls]
  · simp only [eventsOf, run_callback, authShape_calls]
  · simp only [eventsOf, run_user, authShape_calls]
  · simp only [eventsOf, run_logout, authShape_calls]
  · simp only [eventsOf, run_profile]
    cases lib.construct (configAt loadEnv env) <;>
      cases lib.getUserDataHTTP (clientAt loadEnv env heap) req <;>
      simp [calls, Completion.throws]

/-- C6, as stated, fails when the constructor throws: the request on
`/api/auth/login` evaluates the construction once, and no operation is invoked. -/
theorem no_operation_when_constructor_throws :
    constructions (eventsOf brokenLibrary sampleEnv sampleEnv 0 .login sampleRequest
        sampleResponse) = [(0, configAt sampleEnv sampleEnv)] ∧
    calls (eventsOf brokenLibrary sampleEnv sampleEnv 0 .login sampleRequest
        sampleResponse) = [] := by
  decide

/-- C6, amended: every handling of a request on the five client routes
evaluates `new CentralAuthHTTPClass` exactly once, on a newly allocated object;
when the construction returns, exactly one operation is invoked, and it is
invoked on that object; when it throws, none is.  The handler leaves nothing
behind but the allocation count, so the client objects of a request and of any
later request are distinct. -/
theorem one_fresh_client_per_request (lib : AuthLibrary) (loadEnv env : Env) (heap : Nat)
    (route : Route) (req : Request) (res : Response) (h : route ∈ clientRoutes) :
    constructions (eventsOf lib loadEnv env heap route req res) =
      [(heap, configAt loadEnv env)] ∧
    ((lib.construct (configAt loadEnv env)).throws = false →
      ∃ op rq rs o, calls (eventsOf lib loadEnv env heap route req res) =
        [.call heap op rq rs o]) ∧
    ((lib.construct (configAt loadEnv env)).throws = true →
      calls (eventsOf lib loadEnv env heap route req res) = []) ∧
    heapAfter lib loadEnv env heap route req res = heap + 1 ∧
    ∀ (lib2 : AuthLibrary) (env2 : Env) (heap2 : Nat) (route2 : Route) (req2 : Request)
      (res2 : Response), route2 ∈ clientRoutes →
      heapAfter lib loadEnv env heap route req res ≤ heap2 →
      ∀ i ∈ clientIds (eventsOf lib loadEnv env heap route req res),
      ∀ j ∈ clientIds (eventsOf lib2 loadEnv env2 heap2 route2 req2 res2), i ≠ j := by
  refine ⟨clientRoute_constructions lib loadEnv env heap route req res h, ?_, ?_,
    clientRoute_heapAfter lib loadEnv env heap route req res h, ?_⟩
  · intro hc
    rw [clientRoute_calls lib loadEnv env heap route req res h, hc]
    simp only [clientRoutes, List.mem_cons, List.mem_nil_iff, or_false] at h
    rcases h with h | h | h | h | h <;> subst h <;> exact ⟨_, _, _, _, rfl⟩
  · intro hc
    rw [clientRoute_calls lib loadEnv env heap route req res h, hc]
    rfl
  · intro lib2 env2 heap2 route2 req2 res2 h2 hle i hi j hj
    rw [clientRoute_heapAfter lib loadEnv env heap route req res h] at hle
    have e1 := clientRoute_clientIds lib loadEnv env heap route req res h i hi
    have e2 := clientRoute_clientIds lib2 loadEnv env2 heap2 route2 req2 res2 h2 j hj
    omega

/-- Witness for C6: a login followed by a visit of the profile page. -/
theorem one_fresh_client_per_request_witness :
    constructions (eventsOf workingLibrary sampleEnv sampleEnv 0 .login sampleRequest
        sampleResponse) = [(0, configAt sampleEnv sampleEnv)] ∧
    heapAfter workingLibrary sampleEnv sampleEnv 0 .login sampleRequest sampleResponse = 1 ∧
    clientIds (eventsOf workingLibrary sampleEnv sampleEnv 0 .login sampleRequest
        sampleResponse) = [0, 0] ∧
    clientIds (eventsOf workingLibrary sampleEnv sampleEnv 1 .profile sampleRequest
        sampleResponse) = [1, 1] :=
  have h := one_fresh_client_per_request workingLibrary sampleEnv sampleEnv 0 .login
    sampleRequest sampleResponse (by decide)
  ⟨h.1, h.2.2.2.1, by decide, by decide⟩

/-- C7: the dispatch is fixed.  The calls a route makes on the client are: on
login `loginHTTP(req, res, {returnTo: baseUrl + '/profile'})`, on callback
`callbackHTTP(req, res)`, on user `userHTTP(req, res)`, on logout
`logoutHTTP(req, res, {returnTo: baseUrl})`, each with the inbound request and
response and on the client just constructed; options are passed on login and
logout only.  (The call is made once the client has been constructed.) -/
theorem dispatch_is_fixed (lib : AuthLibrary) (loadEnv env : Env) (heap : Nat)
    (req : Request) (res : Response) :
    calls (eventsOf lib loadEnv env heap .login req res) =
      (if (lib.construct (configAt loadEnv env)).throws then []
       else [.call heap .loginHTTP req (some res)
          (some { returnTo := baseUrl loadEnv ++ "/profile" })]) ∧
    calls (eventsOf lib loadEnv env heap .callback req res) =
      (if (lib.construct (configAt loadEnv env)).throws then []
       else [.call heap .callbackHTTP req (some res) none]) ∧
    calls (eventsOf lib loadEnv env heap .user req res) =
      (if (lib.construct (configAt loadEnv env)).throws then []
       else [.call heap .userHTTP req (some res) none]) ∧
    calls (eventsOf lib loadEnv env heap .logout req res) =
      (if (lib.construct (configAt loadEnv env)).throws then []
       else [.call heap .logoutHTTP req (some res) (some { returnTo := baseUrl loadEnv })]) := by
  refine ⟨?_, ?_, ?_, ?_⟩
  · exact clientRoute_calls lib loadEnv env heap .login req res (by decide)
  · exact clientRoute_calls lib loadEnv env heap .callback req res (by decide)
  · exact clientRoute_calls lib loadEnv env heap .user req res (by decide)
  · exact clientRoute_calls lib loadEnv env heap .logout req res (by decide)

/-- C8, as stated, fails for `callbackUrl`: with `BASE_URL` changed between the
loading of the module and the request, the client of the request is still built
with the callback address of the value read at load time. -/
theorem callbackUrl_fixed_at_load :
    (constructions (eventsOf workingLibrary sampleEnv movedEnv 0 .login sampleRequest
        sampleResponse)).map (fun c => c.2.callbackUrl) =
      ["https://app.example/api/auth/callback"] ∧
    envOr movedEnv.BASE_URL "http://localhost:3000" ++ "/api/auth/callback" =
      "https://moved.example/api/auth/callback" := by
  decide

/-- C8, amended: on every request of the five client routes the client is built
with `clientId`, `secret` and `authBaseUrl` read from the environment as it
stands when the request is handled, with `debug = true`, and with `callbackUrl`
equal to `baseUrl + '/api/auth/callback'`, where `baseUrl` is `BASE_URL` as it
stood when the module was loaded, or `http://localhost:3000` when that was unset
or empty. -/
theorem client_configuration (lib : AuthLibrary) (loadEnv env : Env) (heap : Nat)
    (route : Route) (req : Request) (res : Response) (h : route ∈ clientRoutes) :
    constructions (eventsOf lib loadEnv env heap route req res) =
      [(heap, { clientId := env.AUTH_ORGANIZATION_ID
                secret := env.AUTH_SECRET
                authBaseUrl := env.AUTH_BASE_URL
                callbackUrl :=
                  envOr loadEnv.BASE_URL "http://localhost:3000" ++ "/api/auth/callback"
                debug := true })] ∧
    (loadEnv.BASE_URL = none ∨ loadEnv.BASE_URL = some "" →
      (constructions (eventsOf lib loadEnv env heap route req res)).map
        (fun c => c.2.callbackUrl) = ["http://localhost:3000/api/auth/callback"]) := by
  rw [clientRoute_constructions lib loadEnv env heap route req res h]
  refine ⟨rfl, ?_⟩
  intro hb
  rcases hb with hb | hb <;> simp [configAt, baseUrl, envOr, hb]

/-- Witness for C8: a request on `/api/auth/logout` after `BASE_URL` changed. -/
theorem client_configuration_witness :
    constructions (eventsOf workingLibrary sampleEnv movedEnv 3 .logout sampleRequest
        sampleResponse) =
      [(3, { clientId := some "org-1"
             secret := some "s3cret"
             authBaseUrl := some "https://auth.example"
             callbackUrl := "https://app.example/api/auth/callback"
             debug := true })] :=
  (client_configuration workingLibrary sampleEnv movedEnv 3 .logout sampleRequest
    sampleResponse (by decide)).1

theorem getErrorMessage_outside_inherited_names (v : JsValue)
    (hc : toStr v ≠ "constructor") (hm : toStr v ∉ objectPrototypeMethods)
    (hp : toStr v ≠ "__proto__") :
    ∃ m ∈ tableMessages, getErrorMessage v = .string m := by
  simp only [getErrorMessage, getProperty]
  cases h : errors.lookup (toStr v) with
  | some m =>
    refine ⟨m, ?_, by simp only [jsOr, truthy_lookup_errors (toStr v) m h, if_true]⟩
    simp only [errors, List.lookup] at h
    repeat' split at h
    all_goals first
      | (cases h; decide)
      | (exact absurd h (by simp))
  | none =>
    exact ⟨"An error occurred.", by decide,
      by simp [objectPrototypeGet, hc, hm, hp, jsOr, truthy]⟩

/-- Outside the inherited names the home page does what C9 says: a truthy `error`
parameter gives the fixed text with exactly one error block, holding one of the
six strings of the table; an absent or empty one gives the fixed text alone. -/
theorem homePage_outside_inherited_names (req : Request)
    (hc : toStr req.queryError ≠ "constructor")
    (hm : toStr req.queryError ∉ objectPrototypeMethods)
    (hp : toStr req.queryError ≠ "__proto__") :
    (truthy req.queryError = true →
      ∃ m ∈ tableMessages, getErrorMessage req.queryError = .string m ∧
        homePage req = homeHead ++ ("<div class=\"error\">" ++ m ++ "</div>") ++ homeTail ∧
        occurrences "<div class=\"error\">" (homePage req) = 1) ∧
    (truthy req.queryError = false →
      homePage req = homeHead ++ homeTail ∧
      occurrences "<div class=\"error\">" (homePage req) = 0) := by
  constructor
  · intro ht
    obtain ⟨m, hmem, hget⟩ := getErrorMessage_outside_inherited_names req.queryError hc hm hp
    have hp : homePage req =
        homeHead ++ ("<div class=\"error\">" ++ m ++ "</div>") ++ homeTail := by
      simp [homePage, errorBlock, ht, hget, toStr]
    refine ⟨m, hmem, hget, hp, ?_⟩
    rw [hp]
    have hall : ∀ t ∈ tableMessages, occurrences "<div class=\"error\">"
        (homeHead ++ ("<div class=\"error\">" ++ t ++ "</div>") ++ homeTail) = 1 := by decide
    exact hall m hmem
  · intro hf
    have hp : homePage req = homeHead ++ homeTail := by
      simp [homePage, errorBlock, hf]
    refine ⟨hp, ?_⟩
    rw [hp]
    decide

/-- C9, evaluated on the code: `GET /?error=toString` sends a page whose error
block holds the source text of the inherited method `toString`, so the raw value
of the parameter appears in the page.  It appears nowhere in the fixed text of
the page, and not in the page for a code that is merely unknown, which shows
the fallback. -/
theorem home_page_reflects_inherited_name :
    homePage { queryError := .string "toString", querySuccess := .undefined, rest := "" } =
      homeHead ++ "<div class=\"error\">function toString() \x7b [native code] \x7d</div>" ++
        homeTail ∧
    occurrences "toString"
      (homePage { queryError := .string "toString", querySuccess := .undefined,
                  rest := "" }) = 1 ∧
    occurrences "toString" (homeHead ++ homeTail) = 0 ∧
    homePage { queryError := .string "no_such_code", querySuccess := .undefined, rest := "" } =
      homeHead ++ "<div class=\"error\">An error occurred.</div>" ++ homeTail ∧
    occurrences "toString"
      (homePage { queryError := .string "no_such_code", querySuccess := .undefined,
                  rest := "" }) = 0 := by
  decide

/-- C10: every redirect a handler can issue goes to `/?error=` followed by a key
of the `errors` table, for which the lookup gives that key's own message and not
the fallback, so the home page for that code shows the message; and every key
of the table is the code of a redirect that some route issues. -/
theorem redirect_codes_match_table :
    (∀ (lib : AuthLibrary) (loadEnv env : Env) (heap : Nat) (route : Route) (req : Request)
        (res : Response) (url : String),
      ResAction.redirect url ∈ handlerActions (eventsOf lib loadEnv env heap route req res) →
      ∃ code msg, (code, msg) ∈ errors ∧ url = "/?error=" ++ code ∧
        getErrorMessage (.string code) = .string msg ∧ msg ≠ "An error occurred." ∧
        ∀ rq : Request, rq.queryError = .string code →
          homePage rq = homeHead ++ ("<div class=\"error\">" ++ msg ++ "</div>") ++ homeTail) ∧
    (∀ code msg, (code, msg) ∈ errors →
      ∃ (lib : AuthLibrary) (loadEnv env : Env) (heap : Nat) (route : Route) (req : Request)
        (res : Response),
        ResAction.redirect ("/?error=" ++ code) ∈
          handlerActions (eventsOf lib loadEnv env heap route req res)) := by
  have known : ∀ code msg, (code, msg) ∈ errors →
      getErrorMessage (.string code) = .string msg ∧ msg ≠ "An error occurred." ∧
      ∀ rq : Request, rq.queryError = .string code →
        homePage rq = homeHead ++ ("<div class=\"error\">" ++ msg ++ "</div>") ++ homeTail := by
    intro code msg hm
    have hall : ∀ kv ∈ errors, getErrorMessage (.string kv.1) = .string kv.2 ∧
        kv.2 ≠ "An error occurred." ∧ truthy (.string kv.1) = true := by decide
    obtain ⟨h1, h2, h3⟩ := hall (code, msg) hm
    refine ⟨h1, h2, ?_⟩
    intro rq hq
    simp only [homePage, errorBlock, hq, h3, h1, toStr, if_true]
  constructor
  · intro lib loadEnv env heap route req res url h
    have key : ∀ code msg, (code, msg) ∈ errors → url = "/?error=" ++ code →
        ∃ code msg, (code, msg) ∈ errors ∧ url = "/?error=" ++ code ∧
          getErrorMessage (.string code) = .string msg ∧ msg ≠ "An error occurred." ∧
          ∀ rq : Request, rq.queryError = .string code →
            homePage rq =
              homeHead ++ ("<div class=\"error\">" ++ msg ++ "</div>") ++ homeTail :=
      fun code msg hm hu => ⟨code, msg, hm, hu, known code msg hm⟩
    cases route with
    | home => simp [eventsOf, run_home, handlerActions] at h
    | login =>
      simp only [eventsOf, run_login, authShape_handlerActions] at h
      split at h
      · simp only [List.mem_singleton, ResAction.redirect.injEq] at h
        exact key "login_failed" "Login failed. Please try again."
          (by decide) h
      · simp at h
    | callback =>
      simp only [eventsOf, run_callback, authShape_handlerActions] at h
      split at h
      · simp only [List.mem_singleton, ResAction.redirect.injEq] at h
        exact key "callback_failed" "Authentication callback failed. Please try logging in again."
          (by decide) h
      · simp at h
    | user =>
      simp only [eventsOf, run_user, authShape_handlerActions] at h
      split at h
      · simp only [List.mem_singleton, ResAction.redirect.injEq] at h
        exact key "user_info_failed" "Failed to get user information. Please try again."
          (by decide) h
      · simp at h
    | logout =>
      simp only [eventsOf, run_logout, authShape_handlerActions] at h
      split at h
      · simp only [List.mem_singleton, ResAction.redirect.injEq] at h
        exact key "logout_failed" "Logout failed. Please try again."
          (by decide) h
      · simp at h
    | profile =>
      simp only [eventsOf, run_profile] at h
      split at h
      · simp only [handlerActions, List.mem_singleton, ResAction.redirect.injEq] at h
        exact key "not_logged_in" "You need to be logged in to view the profile."
          (by decide) h
      · split at h
        · simp only [handlerActions, List.mem_singleton, ResAction.redirect.injEq] at h
          exact key "not_logged_in" "You need to be logged in to view the profile."
            (by decide) h
        · simp [handlerActions] at h
  · intro code msg hm
    simp only [errors, List.mem_cons, Prod.mk.injEq, List.mem_nil_iff, or_false] at hm
    rcases hm with ⟨h, _⟩ | ⟨h, _⟩ | ⟨h, _⟩ | ⟨h, _⟩ | ⟨h, _⟩ <;> subst h
    · exact ⟨brokenLibrary, sampleEnv, sampleEnv, 0, .profile, sampleRequest, sampleResponse,
        by decide⟩
    · exact ⟨brokenLibrary, sampleEnv, sampleEnv, 0, .logout, sampleRequest, sampleResponse,
        by decide⟩
    · exact ⟨brokenLibrary, sampleEnv, sampleEnv, 0, .callback, sampleRequest, sampleResponse,
        by decide⟩
    · exact ⟨brokenLibrary, sampleEnv, sampleEnv, 0, .login, sampleRequest, sampleResponse,
        by decide⟩
    · exact ⟨brokenLibrary, sampleEnv, sampleEnv, 0, .user, sampleRequest, sampleResponse,
        by decide⟩

/-- Witness for C10: the redirect of a failed callback. -/
theorem redirect_codes_match_table_witness :
    ∃ code msg, (code, msg) ∈ errors ∧ "/?error=callback_failed" = "/?error=" ++ code ∧
      getErrorMessage (.string code) = .string msg ∧ msg ≠ "An error occurred." ∧
      ∀ rq : Request, rq.queryError = .string code →
        homePage rq = homeHead ++ ("<div class=\"error\">" ++ msg ++ "</div>") ++ homeTail :=
  redirect_codes_match_table.1 failingLibrary sampleEnv sampleEnv 0 .callback sampleRequest
    sampleResponse "/?error=callback_failed" (by decide)

end CentralAuthExpress
